import Mathlib

/-!
Verification of the unit-converter engine (`src/main.py`).

The engine consists of the constant table `UNITS`, the function
`convert_temperature` and the function `convert_unit`.  Numbers are
modelled by `ℚ` (the Python literals are exact decimals), unit and
category names by `String`, and Python's `KeyError` on a failed
dictionary lookup by `Option` (`none` = lookup failure propagated to
the caller).
-/

namespace UnitConvertor

/-- A value stored in a `UNITS` sub-table: Length/Weight store numeric
conversion factors, Temperature stores symbolic tags ("C", "F", "K"). -/
inductive TabVal where
  | num (q : ℚ)
  | sym (s : String)
deriving DecidableEq

/-- The `"Length"` sub-table of `UNITS` (factors into Meter). -/
def lengthTable : String → Option TabVal
  | "Meter" => some (.num 1)
  | "Kilometer" => some (.num 1000)
  | "Centimeter" => some (.num 0.01)
  | "Millimeter" => some (.num 0.001)
  | "Mile" => some (.num 1609.34)
  | "Yard" => some (.num 0.9144)
  | "Foot" => some (.num 0.3048)
  | "Inch" => some (.num 0.0254)
  | _ => none

/-- The `"Weight"` sub-table of `UNITS` (factors into Kilogram). -/
def weightTable : String → Option TabVal
  | "Kilogram" => some (.num 1)
  | "Gram" => some (.num 0.001)
  | "Milligram" => some (.num 0.000001)
  | "Pound" => some (.num 0.453592)
  | "Ounce" => some (.num 0.0283495)
  | _ => none

/-- The `"Temperature"` sub-table of `UNITS` (symbolic tags only). -/
def temperatureTable : String → Option TabVal
  | "Celsius" => some (.sym "C")
  | "Fahrenheit" => some (.sym "F")
  | "Kelvin" => some (.sym "K")
  | _ => none

/-- The top-level `UNITS` dictionary mapping a category name to its
sub-table. -/
def UNITS : String → Option (String → Option TabVal)
  | "Length" => some lengthTable
  | "Weight" => some weightTable
  | "Temperature" => some temperatureTable
  | _ => none

/-- The keys of the `"Length"` sub-table, in source order. -/
def lengthUnits : List String :=
  ["Meter", "Kilometer", "Centimeter", "Millimeter", "Mile", "Yard", "Foot", "Inch"]

/-- The keys of the `"Weight"` sub-table, in source order. -/
def weightUnits : List String :=
  ["Kilogram", "Gram", "Milligram", "Pound", "Ounce"]

/-- The keys of the `"Temperature"` sub-table, in source order. -/
def temperatureUnits : List String :=
  ["Celsius", "Fahrenheit", "Kelvin"]

/-- The keys of a category's sub-table (`[]` for an unknown category). -/
def unitKeys : String → List String
  | "Length" => lengthUnits
  | "Weight" => weightUnits
  | "Temperature" => temperatureUnits
  | _ => []

/-- `convert_temperature` from `src/main.py`: identity short-circuit,
then normalise to Celsius, then convert Celsius to the target. -/
def convert_temperature (value : ℚ) (from_unit to_unit : String) : ℚ :=
  if from_unit = to_unit then
    value
  else
    let celsius :=
      if from_unit = "Fahrenheit" then (value - 32) * 5 / 9
      else if from_unit = "Kelvin" then value - 273.15
      else value
    if to_unit = "Fahrenheit" then celsius * 9 / 5 + 32
    else if to_unit = "Kelvin" then celsius + 273.15
    else celsius

/-- `convert_unit` from `src/main.py`: Temperature delegates to
`convert_temperature`; other categories convert through the base unit
using the stored factors.  `none` models the uncaught Python error
(`KeyError` on a missing category or unit, or the type error reached
if a non-numeric table entry were multiplied). -/
def convert_unit (value : ℚ) (unit_from unit_to unit_type : String) : Option ℚ :=
  if unit_type = "Temperature" then
    some (convert_temperature value unit_from unit_to)
  else
    match UNITS unit_type with
    | none => none
    | some table =>
      match table unit_from, table unit_to with
      | some (.num f), some (.num t) => some (value * f / t)
      | _, _ => none

/-- The numeric conversion factor of unit `u` in category `unit_type`,
read off the `UNITS` table (`none` when the category or unit is absent
or the entry is not numeric). -/
def factor (unit_type u : String) : Option ℚ :=
  match UNITS unit_type with
  | none => none
  | some table =>
    match table u with
    | some (.num q) => some q
    | _ => none

/-- Modelled from the spec (§4.1): the normalisation leg of
temperature conversion, "normalize to Celsius as an intermediate
representation". -/
def to_celsius (value : ℚ) (from_unit : String) : ℚ :=
  if from_unit = "Fahrenheit" then (value - 32) * 5 / 9
  else if from_unit = "Kelvin" then value - 273.15
  else value

/-- Modelled from the spec (§4.1): the output leg of temperature
conversion, "convert Celsius to the target". -/
def from_celsius (celsius : ℚ) (to_unit : String) : ℚ :=
  if to_unit = "Fahrenheit" then celsius * 9 / 5 + 32
  else if to_unit = "Kelvin" then celsius + 273.15
  else celsius

/-- The base unit of a non-temperature category (spec §3 and glossary:
Meter for Length, Kilogram for Weight). -/
def base_unit : String → String
  | "Length" => "Meter"
  | "Weight" => "Kilogram"
  | _ => ""

example : convert_unit 1000 "Meter" "Kilometer" "Length" = some 1 := by
  simp [convert_unit, UNITS, lengthTable, convert_temperature]
example : convert_unit 0 "Celsius" "Fahrenheit" "Temperature" = some 32 := by
  simp [convert_unit, UNITS, convert_temperature]
example : convert_unit 5 "Foo" "Meter" "Length" = none := by rfl

/-- Every key of the `"Length"` sub-table carries a positive numeric
factor. -/
lemma lengthTable_of_mem (u : String) (h : u ∈ lengthUnits) :
    ∃ q, lengthTable u = some (TabVal.num q) ∧ 0 < q := by
  fin_cases h <;> exact ⟨_, rfl, by norm_num⟩

/-- Every key of the `"Weight"` sub-table carries a positive numeric
factor. -/
lemma weightTable_of_mem (u : String) (h : u ∈ weightUnits) :
    ∃ q, weightTable u = some (TabVal.num q) ∧ 0 < q := by
  fin_cases h <;> exact ⟨_, rfl, by norm_num⟩

/-- A string that is not a `"Length"` key looks up to `none`. -/
lemma lengthTable_of_not_mem (u : String) (h : u ∉ lengthUnits) :
    lengthTable u = none := by
  simp only [lengthUnits, List.mem_cons, List.not_mem_nil, or_false, not_or] at h
  unfold lengthTable
  split <;> simp_all

/-- A string that is not a `"Weight"` key looks up to `none`. -/
lemma weightTable_of_not_mem (u : String) (h : u ∉ weightUnits) :
    weightTable u = none := by
  simp only [weightUnits, List.mem_cons, List.not_mem_nil, or_false, not_or] at h
  unfold weightTable
  split <;> simp_all

/-- A string that is not a known category looks up to `none` in
`UNITS`. -/
lemma UNITS_of_not_mem (cat : String)
    (h : cat ∉ ["Length", "Weight", "Temperature"]) : UNITS cat = none := by
  simp only [List.mem_cons, List.not_mem_nil, or_false, not_or] at h
  unfold UNITS
  split <;> simp_all

/-- Inversion for `factor` in the `"Length"` category. -/
lemma factor_length_inv (u : String) (a : ℚ)
    (h : factor "Length" u = some a) : lengthTable u = some (TabVal.num a) := by
  simp only [factor, UNITS] at h
  cases hu : lengthTable u with
  | none => rw [hu] at h; simp at h
  | some tv =>
    cases tv with
    | num q => rw [hu] at h; simp at h; rw [h]
    | sym s => rw [hu] at h; simp at h

/-- Inversion for `factor` in the `"Weight"` category. -/
lemma factor_weight_inv (u : String) (a : ℚ)
    (h : factor "Weight" u = some a) : weightTable u = some (TabVal.num a) := by
  simp only [factor, UNITS] at h
  cases hu : weightTable u with
  | none => rw [hu] at h; simp at h
  | some tv =>
    cases tv with
    | num q => rw [hu] at h; simp at h; rw [h]
    | sym s => rw [hu] at h; simp at h

/-- C5: for every value and every unit-name string `u` (recognized or
not), `convert_temperature value u u` returns the value unchanged, via
the identity short-circuit. -/
theorem convert_temperature_same_unit (value : ℚ) (u : String) :
    convert_temperature value u u = value := by
  simp [convert_temperature]

/-- C10: when neither unit name is "Fahrenheit" nor "Kelvin" (whether
recognized or not, equal or distinct), both legs of
`convert_temperature` fall through to the Celsius case and the value
is returned unchanged. -/
theorem convert_temperature_unrecognized_identity (value : ℚ)
    (from_unit to_unit : String)
    (hf : from_unit ∉ ["Fahrenheit", "Kelvin"])
    (ht : to_unit ∉ ["Fahrenheit", "Kelvin"]) :
    convert_temperature value from_unit to_unit = value := by
  simp only [List.mem_cons, List.not_mem_nil, or_false, not_or] at hf ht
  unfold convert_temperature
  split_ifs <;> simp_all

/-- C10 witness at a concrete input. -/
theorem convert_temperature_unrecognized_identity_witness :
    convert_temperature 7 "X" "Y" = 7 :=
  convert_temperature_unrecognized_identity 7 "X" "Y" (by decide) (by decide)

/-- C4: temperature conversion never fails: `convert_unit` on the
Temperature category always returns a value for arbitrary unit-name
strings, an unrecognized `from_unit` is treated as Celsius on the
normalization leg, and an unrecognized `to_unit` is treated as Celsius
on the output leg. -/
theorem convert_temperature_total_permissive :
    (∀ (value : ℚ) (from_unit to_unit : String),
        convert_unit value from_unit to_unit "Temperature" =
          some (convert_temperature value from_unit to_unit)) ∧
    (∀ (value : ℚ) (from_unit to_unit : String),
        from_unit ∉ ["Fahrenheit", "Kelvin"] →
        convert_temperature value from_unit to_unit =
          convert_temperature value "Celsius" to_unit) ∧
    (∀ (value : ℚ) (from_unit to_unit : String),
        to_unit ∉ ["Fahrenheit", "Kelvin"] →
        convert_temperature value from_unit to_unit =
          convert_temperature value from_unit "Celsius") := by
  refine ⟨fun value f t => by simp [convert_unit],
    fun value f t hf => ?_, fun value f t ht => ?_⟩
  · simp only [List.mem_cons, List.not_mem_nil, or_false, not_or] at hf
    unfold convert_temperature
    split_ifs <;> simp_all
  · simp only [List.mem_cons, List.not_mem_nil, or_false, not_or] at ht
    unfold convert_temperature
    split_ifs <;> simp_all

/-- C4 witness at a concrete input. -/
theorem convert_temperature_total_permissive_witness :
    convert_temperature 7 "Foo" "Kelvin" = convert_temperature 7 "Celsius" "Kelvin" :=
  convert_temperature_total_permissive.2.1 7 "Foo" "Kelvin" (by decide)

/-- C2: for distinct temperature units, `convert_temperature`
normalizes to Celsius and then converts Celsius to the target, and the
four fixed points from the spec hold (0°C = 32°F, 100°C = 212°F,
0°C = 273.15K, 32°F = 0°C). -/
theorem convert_temperature_via_celsius :
    (∀ (value : ℚ) (from_unit to_unit : String),
        from_unit ∈ temperatureUnits → to_unit ∈ temperatureUnits →
        from_unit ≠ to_unit →
        convert_temperature value from_unit to_unit =
          from_celsius (to_celsius value from_unit) to_unit) ∧
    convert_unit 0 "Celsius" "Fahrenheit" "Temperature" = some 32 ∧
    convert_unit 100 "Celsius" "Fahrenheit" "Temperature" = some 212 ∧
    convert_unit 0 "Celsius" "Kelvin" "Temperature" = some 273.15 ∧
    convert_unit 32 "Fahrenheit" "Celsius" "Temperature" = some 0 := by
  refine ⟨fun value f t _ _ hne => ?_, ?_, ?_, ?_, ?_⟩
  · unfold convert_temperature
    rw [if_neg hne]
    rfl
  all_goals simp [convert_unit, convert_temperature] <;> norm_num

/-- C2 witness at a concrete input. -/
theorem convert_temperature_via_celsius_witness :
    convert_temperature 50 "Fahrenheit" "Kelvin" =
      from_celsius (to_celsius 50 "Fahrenheit") "Kelvin" :=
  convert_temperature_via_celsius.1 50 "Fahrenheit" "Kelvin"
    (by decide) (by decide) (by decide)

/-- C1: for units that are keys of a Length or Weight table,
`convert_unit` multiplies by the source unit's factor and divides by
the target unit's factor. -/
theorem convert_unit_factor_composition (value : ℚ) (cat uf ut : String)
    (hcat : cat = "Length" ∨ cat = "Weight")
    (hf : uf ∈ unitKeys cat) (ht : ut ∈ unitKeys cat)
    (a b : ℚ) (ha : factor cat uf = some a) (hb : factor cat ut = some b) :
    convert_unit value uf ut cat = some (value * a / b) := by
  rcases hcat with rfl | rfl
  · have ha' := factor_length_inv uf a ha
    have hb' := factor_length_inv ut b hb
    simp [convert_unit, UNITS, ha', hb']
  · have ha' := factor_weight_inv uf a ha
    have hb' := factor_weight_inv ut b hb
    simp [convert_unit, UNITS, ha', hb']

/-- C1 witness at a concrete input. -/
theorem convert_unit_factor_composition_witness :
    convert_unit 2 "Kilometer" "Centimeter" "Length" = some (2 * 1000 / 0.01) :=
  convert_unit_factor_composition 2 "Length" "Kilometer" "Centimeter"
    (Or.inl rfl) (by decide) (by decide) 1000 0.01 (by rfl) (by rfl)

/-- C3: `convert_unit` returns no numeric result exactly when the
category is not Temperature and either the category is unknown or one
of the unit names is not a key of its table; in particular the two
example inputs from the spec fail. -/
theorem convert_unit_error_iff :
    (∀ (value : ℚ) (uf ut cat : String),
        convert_unit value uf ut cat = none ↔
          cat ≠ "Temperature" ∧
            (cat ∉ ["Length", "Weight", "Temperature"] ∨
              uf ∉ unitKeys cat ∨ ut ∉ unitKeys cat)) ∧
    convert_unit 5 "Foo" "Meter" "Length" = none ∧
    convert_unit 5 "Meter" "Meter" "Bogus" = none := by
  refine ⟨fun value uf ut cat => ?_, by rfl, by rfl⟩
  by_cases hT : cat = "Temperature"
  · subst hT; simp [convert_unit]
  by_cases hL : cat = "Length"
  · subst hL
    simp [convert_unit, UNITS, unitKeys]
    constructor
    · intro h
      by_contra hc
      push_neg at hc
      obtain ⟨hfm, htm⟩ := hc
      obtain ⟨qa, ha, -⟩ := lengthTable_of_mem uf hfm
      obtain ⟨qb, hb, -⟩ := lengthTable_of_mem ut htm
      rw [ha, hb] at h
      simp at h
    · rintro (h | h)
      · rw [lengthTable_of_not_mem uf h]
      · rw [lengthTable_of_not_mem ut h]
        cases hfu : lengthTable uf with
        | none => rfl
        | some tv => cases tv <;> rfl
  by_cases hW : cat = "Weight"
  · subst hW
    simp [convert_unit, UNITS, unitKeys]
    constructor
    · intro h
      by_contra hc
      push_neg at hc
      obtain ⟨hfm, htm⟩ := hc
      obtain ⟨qa, ha, -⟩ := weightTable_of_mem uf hfm
      obtain ⟨qb, hb, -⟩ := weightTable_of_mem ut htm
      rw [ha, hb] at h
      simp at h
    · rintro (h | h)
      · rw [weightTable_of_not_mem uf h]
      · rw [weightTable_of_not_mem ut h]
        cases hfu : weightTable uf with
        | none => rfl
        | some tv => cases tv <;> rfl
  · have hnone : UNITS cat = none := UNITS_of_not_mem cat (by simp [hT, hL, hW])
    simp [convert_unit, hT, hL, hW, hnone]

/-- C3 witness at a concrete input, via the characterisation. -/
theorem convert_unit_error_iff_witness :
    convert_unit 3 "Meter" "Bar" "Length" = none :=
  (convert_unit_error_iff.1 3 "Meter" "Bar" "Length").mpr (by decide)

/-- C6: converting a unit of any category to itself is the identity. -/
theorem convert_unit_identity (value : ℚ) (cat u : String)
    (hc : cat ∈ ["Length", "Weight", "Temperature"]) (hu : u ∈ unitKeys cat) :
    convert_unit value u u cat = some value := by
  fin_cases hc
  · simp only [unitKeys] at hu
    obtain ⟨q, hq, hq0⟩ := lengthTable_of_mem u hu
    simp [convert_unit, UNITS, hq, mul_div_assoc, div_self (ne_of_gt hq0)]
  · simp only [unitKeys] at hu
    obtain ⟨q, hq, hq0⟩ := weightTable_of_mem u hu
    simp [convert_unit, UNITS, hq, mul_div_assoc, div_self (ne_of_gt hq0)]
  · simp [convert_unit, convert_temperature]

/-- C6 witness at a concrete input. -/
theorem convert_unit_identity_witness :
    convert_unit 5 "Mile" "Mile" "Length" = some 5 :=
  convert_unit_identity 5 "Length" "Mile" (by decide) (by decide)

/-- C7: converting one unit of `X` into the category's base unit
yields exactly `X`'s conversion factor. -/
theorem convert_unit_base_factor (cat X : String)
    (hc : cat ∈ ["Length", "Weight"]) (hX : X ∈ unitKeys cat) :
    convert_unit 1 X (base_unit cat) cat = factor cat X := by
  fin_cases hc
  · simp only [unitKeys] at hX
    fin_cases hX <;>
      simp [convert_unit, UNITS, base_unit, factor, lengthTable]
  · simp only [unitKeys] at hX
    fin_cases hX <;>
      simp [convert_unit, UNITS, base_unit, factor, weightTable]

/-- C7 witness at a concrete input. -/
theorem convert_unit_base_factor_witness :
    convert_unit 1 "Inch" (base_unit "Length") "Length" = factor "Length" "Inch" :=
  convert_unit_base_factor "Length" "Inch" (by decide) (by decide)

/-- C8: the base unit of each linear category has factor exactly 1,
and every factor in the Length and Weight tables is positive. -/
theorem units_table_invariant :
    factor "Length" "Meter" = some 1 ∧
    factor "Weight" "Kilogram" = some 1 ∧
    (∀ u ∈ lengthUnits, 0 < (factor "Length" u).getD 0) ∧
    (∀ u ∈ weightUnits, 0 < (factor "Weight" u).getD 0) := by
  refine ⟨rfl, rfl, ?_, ?_⟩ <;>
    intro u hu <;> fin_cases hu <;>
      norm_num [factor, UNITS, lengthTable, weightTable]

/-- C8 witness at a concrete input. -/
theorem units_table_invariant_witness :
    0 < (factor "Length" "Mile").getD 0 :=
  units_table_invariant.2.2.1 "Mile" (by decide)

/-- C9: zero is a fixed point of every Length and Weight conversion. -/
theorem convert_unit_zero_fixed_point (a b cat : String)
    (hc : cat ∈ ["Length", "Weight"])
    (ha : a ∈ unitKeys cat) (hb : b ∈ unitKeys cat) :
    convert_unit 0 a b cat = some 0 := by
  fin_cases hc
  · simp only [unitKeys] at ha hb
    obtain ⟨qa, hqa, -⟩ := lengthTable_of_mem a ha
    obtain ⟨qb, hqb, -⟩ := lengthTable_of_mem b hb
    simp [convert_unit, UNITS, hqa, hqb]
  · simp only [unitKeys] at ha hb
    obtain ⟨qa, hqa, -⟩ := weightTable_of_mem a ha
    obtain ⟨qb, hqb, -⟩ := weightTable_of_mem b hb
    simp [convert_unit, UNITS, hqa, hqb]

/-- C9 witness at a concrete input. -/
theorem convert_unit_zero_fixed_point_witness :
    convert_unit 0 "Pound" "Ounce" "Weight" = some 0 :=
  convert_unit_zero_fixed_point "Pound" "Ounce" "Weight"
    (by decide) (by decide) (by decide)

end UnitConvertor
